import Mathlib

set_option maxRecDepth 100000

/-
Verification development for the CVUS pension-filing reconciliation pipeline.

The Python sources are shallowly embedded as Lean functions:
  * data_ingestion/normalize_sb_fields.py  (parse_int, parse_float, normalize_sb_fields)
  * data_ingestion/merge_sb_sr.py          (merge_sb_sr)
  * data_ingestion/merge_sb_5500.py        (merge_sb_5500)
  * data_ingestion/combine_years.py        (per-year core of combine_years)
  * data_analysis/build_master_dataset.py  (build_master_dataset)
  * agents/derisking_agent.py              (year_over_year_change, detect_freezing,
                                            detect_asset_shift, detect_liability_transfer,
                                            DeRiskingAgent.slope, DeRiskingAgent.analyze_sponsor)
  * agents/peer_benchmark_agent.py         (compute_z_score, compute_percentile)

Modelling conventions:
  * a pandas cell of a raw (string-typed) table is `Option String`; `none` models NaN;
  * numeric series cells are `Option Rat` with `none` for NaN; the float special values
    that arise from division in the de-risking agent are modelled by the type `PFloat`
    (nan, +inf, -inf, finite rational) with IEEE comparison semantics;
  * pandas merges treat NaN join keys as equal to each other, which the embeddings
    mirror by using plain decidable equality on `Option` keys;
  * floats are modelled by rationals; string literals such as "inf" that Python would
    parse to an IEEE special are mapped to missing by the rational-valued parser.
-/

/-
Section 1: Python string and number helpers used by the normalizers.
-/

/-- Strip leading and trailing whitespace from a character list. -/
def stripChars (cs : List Char) : List Char :=
  ((cs.dropWhile Char.isWhitespace).reverse.dropWhile Char.isWhitespace).reverse

/-- Python str.strip: remove leading and trailing whitespace. -/
def pyStrip (s : String) : String := ⟨stripChars s.data⟩

/-- Python str.replace applied to a single comma, as in the thousands-separator
stripping of the SB parsers. -/
def removeCommas (s : String) : String :=
  ⟨s.data.filter (fun c => ¬ c == ',')⟩

/-- Python str.upper. -/
def pyUpper (s : String) : String := ⟨s.data.map Char.toUpper⟩

/-- Remove every whitespace character, modelling .str.replace of a whitespace
regex with the empty string. -/
def removeWhitespace (s : String) : String :=
  ⟨s.data.filter (fun c => ¬ c.isWhitespace)⟩

/-- Python str.zfill w: left-pad with zeros to width w, keeping a leading sign. -/
def zfill (w : Nat) (s : String) : String :=
  if w ≤ s.data.length then s
  else
    let signBody : List Char × List Char :=
      match s.data with
      | c :: rest => if c == '-' || c == '+' then ([c], rest) else ([], c :: rest)
      | [] => ([], [])
    ⟨signBody.1 ++ List.replicate (w - s.data.length) '0' ++ signBody.2⟩

/-- One step of the digit-run validator: the run so far ended in a digit when the
Bool is true; underscores are legal only between digits, as in Python numerals. -/
def digitRunOk : List Char → Bool → Bool
  | [], prevDigit => prevDigit
  | c :: rest, prevDigit =>
    if c.isDigit then digitRunOk rest true
    else if c == '_' then prevDigit && digitRunOk rest false
    else false

/-- A nonempty Python digit run: digits with single interior underscores. -/
def validDigitRun (cs : List Char) : Bool :=
  match cs with
  | [] => false
  | c :: _ => c.isDigit && digitRunOk cs true && digitRunOk cs false

/-- Numeric value of a digit run, ignoring underscores. -/
def digitRunVal (cs : List Char) : Nat :=
  (cs.filter Char.isDigit).foldl (fun acc c => acc * 10 + (c.toNat - 48)) 0

/-- Split a leading sign from a character list, returning (negative, rest). -/
def splitSign : List Char → Bool × List Char
  | c :: rest =>
    if c == '-' then (true, rest)
    else if c == '+' then (false, rest)
    else (false, c :: rest)
  | [] => (false, [])

/-- Python int(s) on an already-stripped string: optional sign then a digit run. -/
def pyIntParse (s : String) : Option Int :=
  let (neg, body) := splitSign s.data
  if validDigitRun body then
    let v : Int := digitRunVal body
    some (if neg then -v else v)
  else none

/-- Split a character list at the first occurrence of a separator character. -/
def splitAtChar (sep : Char) : List Char → List Char × Option (List Char)
  | [] => ([], none)
  | c :: rest =>
    if c == sep then ([], some rest)
    else
      let (pre, post) := splitAtChar sep rest
      (c :: pre, post)

/-- An optionally-empty digit run (used for the integer and fraction parts of a
float literal, where one of the two may be empty). -/
def emptyOrDigitRun (cs : List Char) : Bool :=
  cs.isEmpty || validDigitRun cs

/-- Python float(s) on an already-stripped string, restricted to finite decimal
and scientific literals; IEEE specials (inf, nan) have no rational value and are
mapped to none. -/
def pyFloatParse (s : String) : Option ℚ :=
  let (neg, body) := splitSign s.data
  let (mant, expPart) := splitAtChar 'e' body
  let (mant, expPart) :=
    match expPart with
    | some e => (mant, some e)
    | none => splitAtChar 'E' body
  let (intPart, fracPart) := splitAtChar '.' mant
  let fracDigits := (fracPart.getD []).filter Char.isDigit
  let mantOk := emptyOrDigitRun intPart &&
    (match fracPart with
     | none => validDigitRun intPart
     | some f => emptyOrDigitRun f && (intPart.length + f.length > 0) &&
         (validDigitRun intPart || validDigitRun f))
  let expOk :=
    match expPart with
    | none => true
    | some e => validDigitRun (splitSign e).2
  if mantOk && expOk then
    let mantNum : Int := digitRunVal intPart * 10 ^ fracDigits.length + digitRunVal fracDigits
    let signedMant : Int := if neg then -mantNum else mantNum
    let expVal : Int :=
      match expPart with
      | none => 0
      | some e =>
        let (eneg, edigits) := splitSign e
        let v : Int := digitRunVal edigits
        if eneg then -v else v
    if 0 ≤ expVal then
      some (mkRat (signedMant * 10 ^ expVal.toNat) (10 ^ fracDigits.length))
    else
      some (mkRat signedMant (10 ^ fracDigits.length * 10 ^ (-expVal).toNat))
  else none

/-
Kernel-reducible rational arithmetic. The standard Rat operations do not
reduce inside the kernel, so the embeddings compute through mkRat / divInt,
and bridge lemmas below identify these operations with the field operations
of ℚ for use in algebraic proofs.
-/

/-- Reducible addition on ℚ. -/
def qAdd (a b : ℚ) : ℚ :=
  Rat.divInt (a.num * (b.den : Int) + b.num * (a.den : Int)) ((a.den : Int) * (b.den : Int))

/-- Reducible subtraction on ℚ. -/
def qSub (a b : ℚ) : ℚ :=
  Rat.divInt (a.num * (b.den : Int) - b.num * (a.den : Int)) ((a.den : Int) * (b.den : Int))

/-- Reducible multiplication on ℚ. -/
def qMul (a b : ℚ) : ℚ :=
  Rat.divInt (a.num * b.num) ((a.den : Int) * (b.den : Int))

/-- Reducible division on ℚ; division by zero gives zero, matching the ℚ
convention (the embeddings guard all Python-visible divisions separately). -/
def qDiv (a b : ℚ) : ℚ :=
  Rat.divInt (a.num * (b.den : Int)) ((a.den : Int) * b.num)

/-- Reducible strict comparison on ℚ. -/
def qLtB (a b : ℚ) : Bool := (qSub a b).num < 0

/-- Reducible zero test on ℚ. -/
def qZeroB (a : ℚ) : Bool := a.num == 0

/-- Reducible negativity test on ℚ. -/
def qNegB (a : ℚ) : Bool := a.num < 0

/-- Reducible positivity test on ℚ. -/
def qPosB (a : ℚ) : Bool := 0 < a.num

/-- Reducible sum of a list of rationals. -/
def qSum (xs : List ℚ) : ℚ := xs.foldr qAdd 0

/-- A raw table cell: none is pandas NaN, some s is the string content. -/
abbrev Cell := Option String

/-- Python str(cell): NaN prints as the string nan under astype(str). -/
def cellStr (c : Cell) : String :=
  match c with
  | none => "nan"
  | some s => s

/-- The set of markers treated as missing by the SB parsers. -/
def naMarkers : List String := ["", "NA", "N/A", "NONE"]

/-- parse_int from normalize_sb_fields.py: NA markers and unparsable strings
become missing, never zero. -/
def parse_int (c : Cell) : Option Int :=
  match c with
  | none => none
  | some s =>
    if naMarkers.contains (pyUpper (pyStrip s)) then none
    else pyIntParse (pyStrip (removeCommas s))

/-- parse_float from normalize_sb_fields.py. -/
def parse_float (c : Cell) : Option ℚ :=
  match c with
  | none => none
  | some s =>
    if naMarkers.contains (pyUpper (pyStrip s)) then none
    else pyFloatParse (pyStrip (removeCommas s))


/-
Section 2: embedding of data_ingestion/normalize_sb_fields.py.

A raw pandas table (as produced by the CSV loaders, all cells string-typed) is
a list of column names plus one association list of cells per row; a column
name missing from a row means NaN. The function mutates its input frame (the
canonical-alias rename loop and the ACK_ID synthesis write into df), so the
embedding returns both the final state of the input table and the fresh
normalized output.
-/

/-- One row of a raw string-typed table: cells keyed by column name. -/
abbrev RawRow := List (String × Cell)

/-- A raw pandas table: ordered column names and rows. -/
structure RawTable where
  cols : List String
  rows : List RawRow
deriving Repr, DecidableEq

/-- Read one cell of a row; a key missing from the row is NaN. -/
def rawCell (r : RawRow) (c : String) : Cell := (r.lookup c).getD none

/-- Append a new column with the given per-row values, as pandas column
assignment df of a fresh name does. -/
def tableAddCol (t : RawTable) (c : String) (vals : List Cell) : RawTable :=
  { cols := t.cols ++ [c]
    rows := t.rows.zipWith (fun r v => r ++ [(c, v)]) vals }

/-- The canonical-field alias map of normalize_sb_fields.py, in source order. -/
def FIELD_MAP : List (String × List String) :=
  [("EIN", ["SB_EIN", "SPONS_DFE_EIN", "SCH_R_EIN", "EIN"]),
   ("PLAN_YEAR", ["SB_PLAN_YR", "PLAN_YEAR", "PLAN_YR", "SCH_R_PLAN_YR"]),
   ("ACK_ID", ["ACK_ID", "SCH_R_ACK_ID"]),
   ("ACTIVE_COUNT", ["SB_ACT_PARTCP_CNT", "ACTIVE_COUNT", "ACT_PARTCP_CNT", "ACTIVES"]),
   ("RETIREE_COUNT", ["SB_RTD_PARTCP_CNT", "RETIREE_COUNT", "RTD_PARTCP_CNT", "RETIREE"]),
   ("SEPARATED_COUNT", ["SB_TERM_PARTCP_CNT"]),
   ("TOTAL_PARTICIPANTS", ["SB_TOT_PARTCP_CNT", "TOTAL_PARTICIPANTS", "TOT_PARTCP_CNT", "TOTAL"]),
   ("ACT_LIABILITY", ["SB_ACT_VSTD_FNDNG_TGT_AMT", "ACT_LIABILITY"]),
   ("RET_LIABILITY", ["SB_RTD_FNDNG_TGT_AMT", "RET_LIABILITY"]),
   ("TERM_LIABILITY", ["SB_TERM_FNDNG_TGT_AMT", "TERM_LIABILITY"]),
   ("TOTAL_LIABILITY", ["SB_TOT_FNDNG_TGT_AMT", "TOTAL_LIABILITY"]),
   ("MORTALITY_CODE", ["SB_MORTALITY_TBL_CD", "MORTALITY_CODE"]),
   ("ACTUARY_FIRM_NAME", ["SB_ACTUARY_FIRM_NAME", "ACTUARY_FIRM_NAME"]),
   ("ACTUARY_NAME", ["SB_ACTUARY_NAME_LINE", "ACTUARY_NAME"]),
   ("ACTUARY_CITY", ["SB_ACTUARY_US_CITY", "ACTUARY_CITY"]),
   ("ACTUARY_STATE", ["SB_ACTUARY_US_STATE", "ACTUARY_STATE"])]

/-- The canonical rename loop of normalize_sb_fields.py lines 76 to 79: for
each canonical name absent from the frame, copy the first present alias into a
new column of that canonical name. This writes into the input frame. -/
def applyFieldMapRename (t0 : RawTable) : RawTable :=
  FIELD_MAP.foldl
    (fun t p =>
      p.2.foldl
        (fun t alt =>
          if t.cols.contains p.1 then t
          else if t.cols.contains alt then
            tableAddCol t p.1 (t.rows.map (fun r => rawCell r alt))
          else t)
        t)
    t0

/-- The ACK_ID synthesis of normalize_sb_fields.py lines 112 to 113: when the
frame has EIN, PLAN_NUMBER and PLAN_YEAR columns but no ACK_ID, a synthetic
key is appended to the input frame. Python str of a NaN cell is the string
nan, which cellStr mirrors. -/
def synthesizeAck (t : RawTable) (planYear : Option Int) : RawTable :=
  if ¬ t.cols.contains "ACK_ID" ∧ t.cols.contains "EIN" ∧
      t.cols.contains "PLAN_NUMBER" ∧ t.cols.contains "PLAN_YEAR" then
    tableAddCol t "ACK_ID"
      (t.rows.map (fun r =>
        some (pyStrip (cellStr (rawCell r "EIN")) ++ "-" ++
          zfill 3 (pyStrip (cellStr (rawCell r "PLAN_NUMBER"))) ++ "-" ++
          (match planYear with | some y => toString y | none => ""))))
  else t

/-- First alias present among the columns of the frame, as the get_col helper
scans its possible names. -/
def chooseCol (t : RawTable) (names : List String) : Option String :=
  names.find? (fun n => t.cols.contains n)

/-- The string cleaning of get_col dtype str: astype(str) then strip, then
empty and NA markers to missing. A NaN cell prints as the string nan and
therefore survives. -/
def strFieldOfCell (c : Cell) : Option String :=
  let s := pyStrip (cellStr c)
  if s = "" ∨ s = "NA" ∨ s = "N/A" then none else some s

/-- get_col with dtype str: missing column gives an all-None column. -/
def getStrField (t : RawTable) (r : RawRow) (names : List String) : Option String :=
  match chooseCol t names with
  | none => none
  | some col => strFieldOfCell (rawCell r col)

/-- get_col with dtype int: the chosen column mapped through parse_int. -/
def getIntField (t : RawTable) (r : RawRow) (names : List String) : Option Int :=
  match chooseCol t names with
  | none => none
  | some col => parse_int (rawCell r col)

/-- get_col with dtype float: the chosen column mapped through parse_float. -/
def getFloatField (t : RawTable) (r : RawRow) (names : List String) : Option ℚ :=
  match chooseCol t names with
  | none => none
  | some col => parse_float (rawCell r col)

/-- The canonical output schema of normalize_sb_fields. -/
structure SBOutRow where
  ein : Option String
  planNumber : Option String
  planYear : Option Int
  activeCount : Option Int
  retireeCount : Option Int
  separatedCount : Option Int
  totalParticipants : Option Int
  actLiability : Option ℚ
  retLiability : Option ℚ
  termLiability : Option ℚ
  totalLiability : Option ℚ
  mortalityCode : Option String
  actuaryFirmName : Option String
  actuaryName : Option String
  actuaryCity : Option String
  actuaryState : Option String
deriving Repr, DecidableEq

/-- Whether the TOTAL_PARTICIPANTS source column is entirely null, which makes
normalize_sb_fields fall back to the row sum with min_count one. -/
def totalAllNull (t : RawTable) : Bool :=
  t.rows.all (fun r => (getIntField t r ["SB_TOT_PARTCP_CNT", "TOTAL_PARTICIPANTS", "TOT_PARTCP_CNT", "TOTAL"]).isNone)

/-- One output row of normalize_sb_fields, computed from the renamed frame.
SEPARATED_COUNT is filled with zero (line 120 of the source); the total falls
back to the min_count one row sum of the three count columns, in which the
already-filled SEPARATED_COUNT always participates. -/
def sbNormRow (t : RawTable) (planYear : Option Int) (tpAllNull : Bool) (r : RawRow) : SBOutRow :=
  let active := getIntField t r ["SB_ACT_PARTCP_CNT", "ACTIVE_COUNT", "ACT_PARTCP_CNT", "ACTIVES"]
  let retiree := getIntField t r ["SB_RTD_PARTCP_CNT", "RETIREE_COUNT", "RTD_PARTCP_CNT", "RETIREE"]
  let sepRaw := getIntField t r ["SB_TERM_PARTCP_CNT"]
  let sep : Int := sepRaw.getD 0
  let totalSrc := getIntField t r ["SB_TOT_PARTCP_CNT", "TOTAL_PARTICIPANTS", "TOT_PARTCP_CNT", "TOTAL"]
  { ein := (getStrField t r ["SB_EIN", "SPONS_DFE_EIN", "SCH_R_EIN", "EIN"]).map removeWhitespace
    planNumber :=
      if t.cols.contains "PLAN_NUMBER" then
        some (zfill 3 (pyStrip (cellStr (rawCell r "PLAN_NUMBER"))))
      else none
    planYear :=
      match planYear with
      | some y => some y
      | none => getIntField t r ["SB_PLAN_YR", "PLAN_YEAR", "PLAN_YR", "SCH_R_PLAN_YR"]
    activeCount := active
    retireeCount := retiree
    separatedCount := some sep
    totalParticipants :=
      if tpAllNull then some (active.getD 0 + retiree.getD 0 + sep) else totalSrc
    actLiability := getFloatField t r ["SB_ACT_VSTD_FNDNG_TGT_AMT", "ACT_LIABILITY"]
    retLiability := getFloatField t r ["SB_RTD_FNDNG_TGT_AMT", "RET_LIABILITY"]
    termLiability := getFloatField t r ["SB_TERM_FNDNG_TGT_AMT", "TERM_LIABILITY"]
    totalLiability := getFloatField t r ["SB_TOT_FNDNG_TGT_AMT", "TOTAL_LIABILITY"]
    mortalityCode := getStrField t r ["SB_MORTALITY_TBL_CD", "MORTALITY_CODE"]
    actuaryFirmName := getStrField t r ["SB_ACTUARY_FIRM_NAME", "ACTUARY_FIRM_NAME"]
    actuaryName := getStrField t r ["SB_ACTUARY_NAME_LINE", "ACTUARY_NAME"]
    actuaryCity := getStrField t r ["SB_ACTUARY_US_CITY", "ACTUARY_CITY"]
    actuaryState := getStrField t r ["SB_ACTUARY_US_STATE", "ACTUARY_STATE"] }

/-- The state of the input frame after the rename loop and the ACK_ID
synthesis have written into it. -/
def normalizedFrame (t0 : RawTable) (planYear : Option Int) : RawTable :=
  synthesizeAck (applyFieldMapRename t0) planYear

/-- normalize_sb_fields from normalize_sb_fields.py. The first component is
the final state of the input frame (the function writes renamed alias columns
and a synthesized ACK_ID into it); the second is the fresh canonical output. -/
def normalize_sb_fields (t0 : RawTable) (planYear : Option Int) : RawTable × List SBOutRow :=
  (normalizedFrame t0 planYear,
    (normalizedFrame t0 planYear).rows.map
      (sbNormRow (normalizedFrame t0 planYear) planYear (totalAllNull (normalizedFrame t0 planYear))))

/-
Section 3: embedding of data_ingestion/merge_sb_sr.py.

Rows of the normalized SB and Schedule R frames carry the merge keys EIN,
PLAN_NUMBER, YEAR and ACK_ID plus an opaque payload. The function performs an
inner merge on the triple, recomputes the unmatched pools, performs a fallback
inner merge on ACK_ID and YEAR, concatenates, and drops duplicates of the
triple keeping the first row. In the fallback merge the EIN and PLAN_NUMBER
columns of the two sides are suffixed, so fallback rows carry NaN in the bare
EIN and PLAN_NUMBER columns of the concatenated frame; pandas drop_duplicates
treats NaN keys as equal, as does the keyed dedup below.
-/

/-- drop_duplicates with keep first over an arbitrary key function. -/
def dedupByKey {α κ : Type} [DecidableEq κ] (key : α → κ) : List α → List α
  | [] => []
  | x :: xs => x :: dedupByKey key (xs.filter (fun y => decide (¬ key y = key x)))
termination_by xs => xs.length
decreasing_by
  have h := List.length_filter_le (fun y => decide (¬ key y = key x)) xs
  simp only [List.length_cons]
  omega

/-- One row of a normalized SB or Schedule R frame as merged by merge_sb_sr. -/
structure SbSrRow where
  ein : String
  planNumber : String
  year : Int
  ackId : Option String
  payload : Int
deriving Repr, DecidableEq

/-- One row of the frame returned by merge_sb_sr. Primary-match rows carry the
bare key columns; fallback-match rows carry only the suffixed identifier
columns plus the shared ACK_ID join key, with NaN in the bare EIN and
PLAN_NUMBER columns. -/
structure MergedSbSr where
  ein : Option String
  planNumber : Option String
  year : Int
  einSB : Option String
  einSR : Option String
  pnSB : Option String
  pnSR : Option String
  ackSB : Option String
  ackSR : Option String
  ackShared : Option String
  paySB : Option Int
  paySR : Option Int
deriving Repr, DecidableEq

/-- A primary (EIN, PLAN_NUMBER, YEAR) inner-merge row of merge_sb_sr. -/
def primaryRowSbSr (a b : SbSrRow) : MergedSbSr :=
  { ein := some a.ein, planNumber := some a.planNumber, year := a.year
    einSB := none, einSR := none, pnSB := none, pnSR := none
    ackSB := a.ackId, ackSR := b.ackId, ackShared := none
    paySB := some a.payload, paySR := some b.payload }

/-- A fallback (ACK_ID, YEAR) inner-merge row of merge_sb_sr. -/
def fallbackRowSbSr (a b : SbSrRow) : MergedSbSr :=
  { ein := none, planNumber := none, year := a.year
    einSB := some a.ein, einSR := some b.ein
    pnSB := some a.planNumber, pnSR := some b.planNumber
    ackSB := none, ackSR := none, ackShared := a.ackId
    paySB := some a.payload, paySR := some b.payload }

/-- The dedup key of merge_sb_sr line 51: the bare EIN, PLAN_NUMBER and YEAR
columns, with NaN keys compared equal as pandas drop_duplicates does. -/
def sbSrKey (m : MergedSbSr) : Option String × Option String × Int :=
  (m.ein, m.planNumber, m.year)

/-- merge_sb_sr from merge_sb_sr.py: inner merge on the triple, fallback inner
merge of the two unmatched pools on ACK_ID and YEAR, concatenation, and
drop_duplicates on the triple keeping the first row. -/
def merge_sb_sr (sb sr : List SbSrRow) : List MergedSbSr :=
  let primary := sb.flatMap (fun a =>
    (sr.filter (fun b => b.ein == a.ein && b.planNumber == a.planNumber && b.year == a.year)).map
      (primaryRowSbSr a))
  let inPrimary := fun (ein pn : String) (yr : Int) =>
    primary.any (fun m => m.ein == some ein && m.planNumber == some pn && m.year == yr)
  let sbUnmatched := sb.filter (fun a => ¬ inPrimary a.ein a.planNumber a.year)
  let srUnmatched := sr.filter (fun b => ¬ inPrimary b.ein b.planNumber b.year)
  let fallback := sbUnmatched.flatMap (fun a =>
    (srUnmatched.filter (fun b => b.ackId == a.ackId && b.year == a.year)).map
      (fallbackRowSbSr a))
  dedupByKey sbSrKey (primary ++ fallback)

/-
Section 4: embedding of data_analysis/build_master_dataset.py.

The yearly merged frames are already typed (counts Int64, liabilities float),
so a yearly row carries optional numbers directly. The function concatenates
all years, overwrites PLAN_YEAR with the supplied year, builds TRACKING_ID,
sorts by (TRACKING_ID, PLAN_YEAR), computes groupwise year-over-year diffs and
the annuitant ratio with a protected division, and attaches per
(EIN, PLAN_NUMBER) behavioral flags. No deduplication is performed anywhere
in this function.
-/

/-- Missing-propagating subtraction on optional integers (pandas diff). -/
def optSubInt (a b : Option Int) : Option Int :=
  match a, b with
  | some x, some y => some (x - y)
  | _, _ => none

/-- Missing-propagating subtraction on optional rationals (pandas diff). -/
def optSubQ (a b : Option ℚ) : Option ℚ :=
  match a, b with
  | some x, some y => some (qSub x y)
  | _, _ => none

/-- Pandas comparison of an optional integer with zero: NaN compares false. -/
def optIntNegB (a : Option Int) : Bool :=
  match a with
  | some v => v < 0
  | none => false

/-- Pandas comparison of an optional rational below zero: NaN compares false. -/
def optQNegB (a : Option ℚ) : Bool :=
  match a with
  | some v => qNegB v
  | none => false

/-- Pandas comparison of an optional rational above zero: NaN compares false. -/
def optQPosB (a : Option ℚ) : Bool :=
  match a with
  | some v => qPosB v
  | none => false

/-- Stable insertion of an element into a list sorted by a Bool order. -/
def insertSortedBy {α : Type} (le : α → α → Bool) (x : α) : List α → List α
  | [] => [x]
  | y :: ys => if le y x then y :: insertSortedBy le x ys else x :: y :: ys

/-- Stable insertion sort by a Bool order. -/
def sortByKeyed {α : Type} (le : α → α → Bool) : List α → List α
  | [] => []
  | x :: xs => insertSortedBy le x (sortByKeyed le xs)

/-- One row of a yearly merged frame fed to build_master_dataset. -/
structure YearlyRow where
  ein : String
  planNumber : String
  activeCount : Option Int
  retireeCount : Option Int
  separatedCount : Option Int
  totalParticipants : Option Int
  retLiability : Option ℚ
  totalLiability : Option ℚ
  annuityPurchases : Option ℚ
  assetFixedIncomePct : Option ℚ
deriving Repr, DecidableEq

/-- One row of the all-years master table. -/
structure MasterRow where
  ein : String
  planNumber : String
  planYear : Int
  trackingId : String
  activeCount : Option Int
  retireeCount : Option Int
  separatedCount : Option Int
  totalParticipants : Option Int
  retLiability : Option ℚ
  totalLiability : Option ℚ
  annuityPurchases : Option ℚ
  assetFixedIncomePct : Option ℚ
  activeYoy : Option Int
  retireeYoy : Option Int
  separatedYoy : Option Int
  annuitantRatio : Option ℚ
  annuitantRatioYoy : Option ℚ
  totalLiabYoy : Option ℚ
  retLiabYoy : Option ℚ
  fixedIncomePctYoy : Option ℚ
  isFreezingPattern : Bool
  isAnnuityPurchasePattern : Bool
  assetShiftTowardFi : Bool
deriving Repr, DecidableEq

/-- The annuitant ratio of build_master_dataset line 71: retirees plus
separated over total participants, with a zero or missing denominator (and any
missing numerator component) giving NaN. -/
def annuitantRatioOf (retiree separated total : Option Int) : Option ℚ :=
  match retiree, separated, total with
  | some r, some s, some t => if t = 0 then none else some (Rat.divInt (r + s) t)
  | _, _, _ => none

/-- Concatenation step: stamp the year, strip identifiers, build TRACKING_ID;
derived columns are initialized missing and filled by the later passes. -/
def masterBaseRow (year : Int) (r : YearlyRow) : MasterRow :=
  { ein := pyStrip r.ein
    planNumber := pyStrip r.planNumber
    planYear := year
    trackingId := pyStrip r.ein ++ "-" ++ pyStrip r.planNumber
    activeCount := r.activeCount
    retireeCount := r.retireeCount
    separatedCount := r.separatedCount
    totalParticipants := r.totalParticipants
    retLiability := r.retLiability
    totalLiability := r.totalLiability
    annuityPurchases := r.annuityPurchases
    assetFixedIncomePct := r.assetFixedIncomePct
    activeYoy := none, retireeYoy := none, separatedYoy := none
    annuitantRatio := annuitantRatioOf r.retireeCount r.separatedCount r.totalParticipants
    annuitantRatioYoy := none
    totalLiabYoy := none, retLiabYoy := none, fixedIncomePctYoy := none
    isFreezingPattern := false, isAnnuityPurchasePattern := false
    assetShiftTowardFi := false }

/-- Sort order of build_master_dataset line 66: TRACKING_ID then PLAN_YEAR. -/
def masterLe (a b : MasterRow) : Bool :=
  if a.trackingId = b.trackingId then a.planYear ≤ b.planYear
  else a.trackingId < b.trackingId

/-- Groupwise diff pass over the sorted master rows: each diff compares a row
to the previous row of the same TRACKING_ID, missing when there is none. -/
def masterYoyPass (prev : Option MasterRow) : List MasterRow → List MasterRow
  | [] => []
  | r :: rest =>
    let p : Option MasterRow :=
      match prev with
      | some q => if q.trackingId = r.trackingId then some q else none
      | none => none
    let r' :=
      { r with
        activeYoy := match p with | some q => optSubInt r.activeCount q.activeCount | none => none
        retireeYoy := match p with | some q => optSubInt r.retireeCount q.retireeCount | none => none
        separatedYoy := match p with | some q => optSubInt r.separatedCount q.separatedCount | none => none
        annuitantRatioYoy := match p with | some q => optSubQ r.annuitantRatio q.annuitantRatio | none => none
        totalLiabYoy := match p with | some q => optSubQ r.totalLiability q.totalLiability | none => none
        retLiabYoy := match p with | some q => optSubQ r.retLiability q.retLiability | none => none
        fixedIncomePctYoy := match p with | some q => optSubQ r.assetFixedIncomePct q.assetFixedIncomePct | none => none }
    r' :: masterYoyPass (some r) rest

/-- is_freezing_pattern: at least two years of declining actives in the group. -/
def freezingFlag (g : List MasterRow) : Bool :=
  2 ≤ g.countP (fun r => optIntNegB r.activeYoy)

/-- is_annuity_purchase_pattern: some year with declining retirees, declining
retiree liability and positive annuity purchases. -/
def annuityFlag (g : List MasterRow) : Bool :=
  g.any (fun r => optIntNegB r.retireeYoy && optQNegB r.retLiabYoy && optQPosB r.annuityPurchases)

/-- asset_shift_toward_fi: at least two years of rising fixed-income share. -/
def assetShiftFlag (g : List MasterRow) : Bool :=
  2 ≤ g.countP (fun r => optQPosB r.fixedIncomePctYoy)

/-- build_master_dataset from build_master_dataset.py: concatenate the yearly
frames, sort, compute groupwise year-over-year columns, and left-merge the per
(EIN, PLAN_NUMBER) behavioral flags back onto every row. -/
def build_master_dataset (input : List (Int × List YearlyRow)) : List MasterRow :=
  let base := input.flatMap (fun p => p.2.map (masterBaseRow p.1))
  let sorted := sortByKeyed masterLe base
  let withYoy := masterYoyPass none sorted
  withYoy.map (fun r =>
    let g := withYoy.filter (fun x => x.ein == r.ein && x.planNumber == r.planNumber)
    { r with
      isFreezingPattern := freezingFlag g
      isAnnuityPurchasePattern := annuityFlag g
      assetShiftTowardFi := assetShiftFlag g })

/-
Section 5: embedding of data_ingestion/merge_sb_5500.py and the per-year core
of data_ingestion/combine_years.py.

merge_sb_5500 is embedded at the schema the pipeline feeds it: both frames
carry EIN, PLAN_NUMBER and PLAN_YEAR columns, and an ACK_ID column exactly
when the hasAck flag is set. When ACK_ID is present on both sides the source
merges on it with suffixes. That suffixes away the shared EIN and PLAN_NUMBER
columns, so line 95 (TRACKING_ID construction from the bare EIN column)
raises KeyError. In the remaining branch the source merges on the key triple;
no column named EIN_SB then exists, so sb_merge_flag is the scalar False and
merge_quality is zero on every row; the Schedule R merge on line 102 refers to
EIN_5500, which also does not exist in this branch, so a nonempty Schedule R
frame raises as well.
-/

/-- One row of a filing frame fed to merge_sb_5500. -/
structure FilingRow where
  ein : String
  planNumber : String
  planYear : Option Int
  ackId : Option String
  payload : Int
deriving Repr, DecidableEq

/-- A filing frame with an optional ACK_ID column. -/
structure FilingFrame where
  hasAck : Bool
  rows : List FilingRow
deriving Repr, DecidableEq

/-- The in-place key normalization of merge_sb_5500 lines 30 to 50. -/
def normFilingFrame (f : FilingFrame) : FilingFrame :=
  { f with rows := f.rows.map (fun r =>
      { r with ein := pyStrip r.ein, planNumber := zfill 3 (pyStrip r.planNumber) }) }

/-- One row of the merge_sb_5500 output. -/
structure Merged5500Row where
  ein : String
  planNumber : String
  planYear : Option Int
  ackId : Option String
  pay5500 : Option Int
  paySB : Option Int
  sbMergeFlag : Bool
  srMergeFlag : Bool
  mergeQuality : Int
  trackingId : String
deriving Repr, DecidableEq

/-- Key equality of the (EIN, PLAN_NUMBER, PLAN_YEAR) outer merge; pandas
matches NaN keys with each other, as Option equality does. -/
def filingKeyEq (a b : FilingRow) : Bool :=
  a.ein == b.ein && a.planNumber == b.planNumber && a.planYear == b.planYear

/-- A matched row of the outer merge in the branch without ACK_ID in both
frames; at most one side carries an ACK_ID column, which is then unsuffixed. -/
def merged5500Both (hf hs : Bool) (a b : FilingRow) : Merged5500Row :=
  { ein := a.ein, planNumber := a.planNumber, planYear := a.planYear
    ackId := if hf then a.ackId else if hs then b.ackId else none
    pay5500 := some a.payload, paySB := some b.payload
    sbMergeFlag := false, srMergeFlag := false, mergeQuality := 0
    trackingId := "" }

/-- A 5500-only row of the outer merge. -/
def merged5500Left (hf : Bool) (a : FilingRow) : Merged5500Row :=
  { ein := a.ein, planNumber := a.planNumber, planYear := a.planYear
    ackId := if hf then a.ackId else none
    pay5500 := some a.payload, paySB := none
    sbMergeFlag := false, srMergeFlag := false, mergeQuality := 0
    trackingId := "" }

/-- An SB-only row of the outer merge. -/
def merged5500Right (hs : Bool) (b : FilingRow) : Merged5500Row :=
  { ein := b.ein, planNumber := b.planNumber, planYear := b.planYear
    ackId := if hs then b.ackId else none
    pay5500 := none, paySB := some b.payload
    sbMergeFlag := false, srMergeFlag := false, mergeQuality := 0
    trackingId := "" }

/-- merge_sb_5500 from merge_sb_5500.py at the pipeline schema. The branch
that merges on ACK_ID raises KeyError at the TRACKING_ID line because the
suffixed frames have no bare EIN column; the other branch completes only when
the Schedule R frame is absent or empty, and every surviving row carries
sb_merge_flag False and merge_quality 0. -/
def merge_sb_5500 (df5500 dfSb : FilingFrame) (dfSr : Option FilingFrame) :
    Except String (List Merged5500Row) :=
  let f := normFilingFrame df5500
  let s := normFilingFrame dfSb
  if f.hasAck && s.hasAck then
    Except.error "KeyError: EIN"
  else
    let matched := f.rows.flatMap (fun a =>
      (s.rows.filter (fun b => filingKeyEq a b)).map (merged5500Both f.hasAck s.hasAck a))
    let leftOnly := (f.rows.filter (fun a => ¬ s.rows.any (fun b => filingKeyEq a b))).map
      (merged5500Left f.hasAck)
    let rightOnly := (s.rows.filter (fun b => ¬ f.rows.any (fun a => filingKeyEq a b))).map
      (merged5500Right s.hasAck)
    let merged := matched ++ leftOnly ++ rightOnly
    let merged := merged.map (fun m =>
      { m with trackingId := m.ein ++ "-" ++ m.planNumber })
    match dfSr with
    | some srf =>
      if srf.rows.isEmpty then Except.ok merged
      else Except.error "KeyError: EIN_5500"
    | none => Except.ok merged

/-- One row of a loaded yearly source frame inside combine_years. -/
structure CYRow where
  ein : String
  planNumber : String
  payload : Int
deriving Repr, DecidableEq

/-- One row of the per-year merged frame built by combine_years. -/
structure CYOut where
  ein : String
  planNumber : String
  planYear : Int
  sbKey : String
  sbPayload : Int
  pay5500 : Option Int
  paySR : Option Int
  trackingId : String
deriving Repr, DecidableEq

/-- Key normalization of combine_years lines 126 to 129. -/
def cyNorm (r : CYRow) : CYRow :=
  { r with ein := pyStrip r.ein, planNumber := zfill 3 (pyStrip r.planNumber) }

/-- The SB_KEY string of combine_years: EIN-PLAN_NUMBER-PLAN_YEAR. -/
def cySbKey (year : Int) (r : CYRow) : String :=
  r.ein ++ "-" ++ r.planNumber ++ "-" ++ toString year

/-- A pandas left merge: each left row paired with each of its matches, or
with none when it has no match. -/
def leftJoin1 {α β : Type} (find : α → List β) (xs : List α) : List (α × Option β) :=
  xs.flatMap (fun a =>
    let ms := find a
    if ms.isEmpty then [(a, none)] else ms.map (fun b => (a, some b)))

/-- The per-year core of combine_years (lines 119 to 161): normalize the SB
frame, filter each supplemental frame to the SB_KEY pool of the SB frame,
left-merge both onto the SB base, and stamp TRACKING_ID and PLAN_YEAR. -/
def combine_years_year (year : Int) (sb : List CYRow)
    (f5500 : Option (List CYRow)) (sr : Option (List CYRow)) : List CYOut :=
  let nsb := sb.map cyNorm
  let sbKeys := nsb.map (cySbKey year)
  let n5500 := ((f5500.getD []).map cyNorm).filter (fun r => sbKeys.contains (cySbKey year r))
  let nsr := ((sr.getD []).map cyNorm).filter (fun r => sbKeys.contains (cySbKey year r))
  let m1 := leftJoin1
    (fun a => n5500.filter (fun b => b.ein == a.ein && b.planNumber == a.planNumber)) nsb
  let m2 := leftJoin1
    (fun p => nsr.filter (fun c => c.ein == p.1.ein && c.planNumber == p.1.planNumber)) m1
  m2.map (fun p =>
    { ein := p.1.1.ein, planNumber := p.1.1.planNumber, planYear := year
      sbKey := cySbKey year p.1.1
      sbPayload := p.1.1.payload
      pay5500 := p.1.2.map CYRow.payload
      paySR := p.2.map CYRow.payload
      trackingId := p.1.1.ein ++ "-" ++ p.1.1.planNumber })

/-
Section 6: embedding of agents/derisking_agent.py.

Sponsor metric series are year-indexed optional rationals; the IEEE specials
that pandas produces from division (infinities from a zero denominator, NaN
from zero over zero or a missing operand) are represented by PFloat with IEEE
comparison semantics: NaN compares false against everything.
-/

/-- A float value as seen by the agent rules. -/
inductive PFloat where
  | nan
  | pinf
  | ninf
  | num (q : ℚ)
deriving Repr, DecidableEq

/-- IEEE subtraction on PFloat. -/
def pfSub (a b : PFloat) : PFloat :=
  match a, b with
  | .nan, _ => .nan
  | _, .nan => .nan
  | .pinf, .pinf => .nan
  | .pinf, _ => .pinf
  | .ninf, .ninf => .nan
  | .ninf, _ => .ninf
  | .num _, .pinf => .ninf
  | .num _, .ninf => .pinf
  | .num x, .num y => .num (qSub x y)

/-- IEEE comparison of a PFloat strictly below a rational threshold; NaN
compares false. -/
def pfLt (p : PFloat) (c : ℚ) : Bool :=
  match p with
  | .nan => false
  | .pinf => false
  | .ninf => true
  | .num q => qLtB q c

/-- IEEE comparison of a PFloat strictly above a rational threshold. -/
def pfGt (p : PFloat) (c : ℚ) : Bool :=
  match p with
  | .nan => false
  | .pinf => true
  | .ninf => false
  | .num q => qLtB c q

/-- fillna(0) on a PFloat: NaN becomes zero, infinities survive. -/
def pfFillna0 (p : PFloat) : PFloat :=
  match p with
  | .nan => .num 0
  | x => x

/-- A year-indexed metric series; none is a missing observation. -/
abbrev YearSeries := List (Int × Option ℚ)

/-- series.dropna().sort_index(): the available observations in year order. -/
def seriesSortDropna (s : YearSeries) : List (Int × ℚ) :=
  (sortByKeyed (fun p q => decide (p.1 ≤ q.1)) s).filterMap
    (fun p => p.2.map (fun v => (p.1, v)))

/-- One pct_change step: (b - a) / a with IEEE semantics at a zero base. -/
def pctOne (a b : ℚ) : PFloat :=
  if qZeroB a then
    if qPosB (qSub b a) then .pinf
    else if qNegB (qSub b a) then .ninf
    else .nan
  else .num (qDiv (qSub b a) a)

/-- Consecutive pct_change values of a dropna-sorted series, from the second
observation on. -/
def pctPairs : List (Int × ℚ) → List (Int × PFloat)
  | (_, a) :: (yb, b) :: rest => (yb, pctOne a b) :: pctPairs ((yb, b) :: rest)
  | _ => []

/-- Series.pct_change(): NaN at the first observation, then consecutive
relative changes. -/
def pct_change_series (xs : List (Int × ℚ)) : List (Int × PFloat) :=
  match xs with
  | [] => []
  | (y, _) :: _ => (y, PFloat.nan) :: pctPairs xs

/-- year_over_year_change from derisking_agent.py: dropna, sort by year,
pct_change, then fillna(0). A gap year is not treated as undefined: the change
is taken against the most recent available earlier observation. -/
def year_over_year_change (s : YearSeries) : List (Int × PFloat) :=
  (pct_change_series (seriesSortDropna s)).map (fun p => (p.1, pfFillna0 p.2))

/-- One row of a sponsor frame consumed by the detection rules. -/
structure SponsorRow where
  year : Int
  active : Option ℚ
  total : Option ℚ
  retired : Option ℚ
  fixedIncomePct : Option ℚ
  liabilityRetired : Option ℚ
  newEntrants : Option ℚ
deriving Repr, DecidableEq

/-- A sponsor frame: rows plus presence flags of the optional columns. -/
structure SponsorFrame where
  rows : List SponsorRow
  hasNewEntrants : Bool
  hasFixedIncomePct : Bool
  hasLiabilityRetired : Bool
deriving Repr, DecidableEq

/-- Element-wise retired over total with IEEE semantics: a missing operand
gives NaN, a zero denominator gives a signed infinity or NaN. -/
def pfDivOpt (a b : Option ℚ) : PFloat :=
  match a, b with
  | some x, some y =>
    if qZeroB y then
      if qPosB x then .pinf
      else if qNegB x then .ninf
      else .nan
    else .num (qDiv x y)
  | _, _ => .nan

/-- Positional diff values of a PFloat list, from the second entry on. -/
def pfDiffPairs : List PFloat → List PFloat
  | a :: b :: rest => pfSub b a :: pfDiffPairs (b :: rest)
  | _ => []

/-- Series.diff(): NaN first, then consecutive differences. -/
def pfDiffList (xs : List PFloat) : List PFloat :=
  match xs with
  | [] => []
  | _ :: _ => PFloat.nan :: pfDiffPairs xs

/-- detect_freezing from derisking_agent.py: returns the triple
(sharp_decline, retiree_ratio_increasing, entrants_low). -/
def detect_freezing (df : SponsorFrame) : Bool × Bool × Bool :=
  let activeChg := year_over_year_change (df.rows.map (fun r => (r.year, r.active)))
  let sharpDecline := activeChg.any (fun p => pfLt p.2 (mkRat (-15) 100))
  let sorted := sortByKeyed (fun a b => decide (a.year ≤ b.year)) df.rows
  let ratio := sorted.map (fun r => pfFillna0 (pfDivOpt r.retired r.total))
  let ratioIncreasing :=
    ((pfDiffList ratio).map pfFillna0).any (fun p => pfGt p (mkRat 5 100))
  let entrantsLow :=
    if df.hasNewEntrants then
      sorted.all (fun r =>
        match r.newEntrants with
        | some q => qLtB q 5
        | none => false)
    else false
  (sharpDecline, ratioIncreasing, entrantsLow)

/-- detect_asset_shift from derisking_agent.py. -/
def detect_asset_shift (df : SponsorFrame) : Bool :=
  if df.hasFixedIncomePct then
    (year_over_year_change (df.rows.map (fun r => (r.year, r.fixedIncomePct)))).any
      (fun p => pfGt p.2 (mkRat 10 100))
  else false

/-- The .get(year, 0) lookup on a change series. -/
def lookupChange (xs : List (Int × PFloat)) (y : Int) : PFloat :=
  match xs.find? (fun p => p.1 == y) with
  | some p => p.2
  | none => .num 0

/-- detect_liability_transfer from derisking_agent.py. -/
def detect_liability_transfer (df : SponsorFrame) : Bool :=
  let retiredChg := year_over_year_change (df.rows.map (fun r => (r.year, r.retired)))
  let liabChg :=
    if df.hasLiabilityRetired then
      year_over_year_change (df.rows.map (fun r => (r.year, r.liabilityRetired)))
    else []
  if ¬ retiredChg.isEmpty ∧ ¬ liabChg.isEmpty then
    retiredChg.any (fun p =>
      pfLt p.2 (mkRat (-10) 100) && pfLt (lookupChange liabChg p.1) (mkRat (-10) 100))
  else false

/-- The trailing n elements of a list, as Series.tail(n). -/
def takeLast {α : Type} (xs : List α) (n : Nat) : List α :=
  xs.drop (xs.length - n)

/-- The slope coefficient of np.polyfit at degree one, by the normal-equation
closed form over exact rationals. -/
def polyfitSlope (pts : List (ℚ × ℚ)) : ℚ :=
  let n : ℚ := mkRat pts.length 1
  let sx := qSum (pts.map Prod.fst)
  let sy := qSum (pts.map Prod.snd)
  let sxy := qSum (pts.map (fun p => qMul p.1 p.2))
  let sxx := qSum (pts.map (fun p => qMul p.1 p.1))
  qDiv (qSub (qMul n sxy) (qMul sx sy)) (qSub (qMul n sxx) (qMul sx sx))

/-- Pair each value with its zero-based index, as np.arange(len(s)) does. -/
def indexPoints (ys : List ℚ) : List (ℚ × ℚ) :=
  ((List.range ys.length).map (fun i => mkRat (Int.ofNat i) 1)).zip ys

namespace DeRiskingAgent

/-- DeRiskingAgent slope method: drop missing observations, sort by year,
keep the trailing window, and fit a least-squares line against the zero-based
index of the kept observations. Fewer than two available observations give an
undefined slope. -/
def slope (series : YearSeries) (years : Nat) : Option ℚ :=
  let s := seriesSortDropna series
  if s.length < 2 then none
  else
    let t := takeLast s years
    if t.length < 2 then none
    else some (polyfitSlope (indexPoints (t.map Prod.snd)))

end DeRiskingAgent

/-- Modelled from the specification words for the trend estimator: the
ordinary least-squares slope of a point set, in the centered covariance form
sum((x - mean x)(y - mean y)) over sum((x - mean x) squared). -/
def olsSlopeSpec (pts : List (ℚ × ℚ)) : ℚ :=
  let n : ℚ := (pts.length : ℚ)
  let mx := (pts.map Prod.fst).sum / n
  let my := (pts.map Prod.snd).sum / n
  ((pts.map (fun p => (p.1 - mx) * (p.2 - my))).sum) /
    ((pts.map (fun p => (p.1 - mx) * (p.1 - mx))).sum)

/-- One row of the lowercase-schema master table the agent methods read. -/
structure AgentRow where
  ein : String
  year : Int
  active : Option ℚ
  retired : Option ℚ
  liabilityTotal : Option ℚ
  liabilityRetired : Option ℚ
  annuitantRatio : Option ℚ
  assetFixedIncomePct : Option ℚ
  annuityPurchases : Option ℚ
deriving Repr, DecidableEq

/-- The successful analysis record returned by analyze_sponsor. -/
structure SponsorAnalysis where
  active3 : Option ℚ
  active5 : Option ℚ
  retired3 : Option ℚ
  retired5 : Option ℚ
  liabTotal3 : Option ℚ
  liabTotal5 : Option ℚ
  annuitant5 : Option ℚ
  fixedIncome5 : Option ℚ
  prtLikelihood : Bool
  freezePattern : Bool
  assetShiftTimeline : List ℚ
  compositeScore : Nat
  isDerisking : Bool
deriving Repr, DecidableEq

/-- The result contract of analyze_sponsor: an explicit not-found error, an
explicit insufficient-history error, or an analysis record. -/
inductive AnalyzeResult where
  | errorNotFound
  | errorInsufficientYears
  | analysis (a : SponsorAnalysis)
deriving Repr, DecidableEq

/-- Positional diff of an optional series, as Series.diff(). -/
def optDiffList (xs : List (Option ℚ)) : List (Option ℚ) :=
  match xs with
  | [] => []
  | _ :: _ =>
    none :: (xs.zip (xs.drop 1)).map (fun p => optSubQ p.2 p.1)

/-- Minimum of the available values of an optional series; NaN when none. -/
def optMin (xs : List (Option ℚ)) : Option ℚ :=
  (xs.filterMap id).foldl
    (fun acc v =>
      match acc with
      | none => some v
      | some m => some (if qLtB v m then v else m))
    none

/-- Maximum of the available values of an optional series; NaN when none. -/
def optMax (xs : List (Option ℚ)) : Option ℚ :=
  (xs.filterMap id).foldl
    (fun acc v =>
      match acc with
      | none => some v
      | some m => some (if qLtB m v then v else m))
    none

/-- Number of distinct years of a sponsor sub-frame, as nunique. -/
def distinctYears (sdf : List AgentRow) : Nat :=
  ((sdf.map AgentRow.year).dedup).length

namespace DeRiskingAgent

/-- DeRiskingAgent.analyze_sponsor: an explicit not-found error when no row
matches the identifier, an explicit insufficient-history error when fewer than
two distinct years are present, and otherwise the slope, freeze, and
de-risking analytics of the source success branch. -/
def analyze_sponsor (master : List AgentRow) (sponsorEin : String) : AnalyzeResult :=
  let sdf := master.filter (fun r => r.ein == sponsorEin)
  if sdf.isEmpty then AnalyzeResult.errorNotFound
  else if distinctYears sdf < 2 then AnalyzeResult.errorInsufficientYears
  else
    let sorted := sortByKeyed (fun a b => decide (a.year ≤ b.year)) sdf
    let active3 := slope (sorted.map (fun r => (r.year, r.active))) 3
    let active5 := slope (sorted.map (fun r => (r.year, r.active))) 5
    let retired3 := slope (sorted.map (fun r => (r.year, r.retired))) 3
    let retired5 := slope (sorted.map (fun r => (r.year, r.retired))) 5
    let liabTotal3 := slope (sorted.map (fun r => (r.year, r.liabilityTotal))) 3
    let liabTotal5 := slope (sorted.map (fun r => (r.year, r.liabilityTotal))) 5
    let annuitant5 := slope (sorted.map (fun r => (r.year, r.annuitantRatio))) 5
    let fixedIncome5 := slope (sorted.map (fun r => (r.year, r.assetFixedIncomePct))) 5
    let prtLikelihood :=
      optQNegB (optMin (optDiffList (sorted.map AgentRow.retired))) &&
      optQNegB (optMin (optDiffList (sorted.map AgentRow.liabilityRetired))) &&
      optQPosB (optMax (sorted.map AgentRow.annuityPurchases))
    let freezePattern :=
      (match active5 with
       | some q => qLtB q (mkRat (-10) 1)
       | none => false) ||
      (match optMin (sorted.map AgentRow.active) with
       | some m => qZeroB m
       | none => false)
    let timeline := (optDiffList (sorted.map AgentRow.assetFixedIncomePct)).filterMap id
    let score :=
      [(match active5 with | some q => qNegB q | none => false),
       (match annuitant5 with | some q => qPosB q | none => false),
       (match fixedIncome5 with | some q => qPosB q | none => false),
       prtLikelihood].countP id
    AnalyzeResult.analysis
      { active3 := active3, active5 := active5
        retired3 := retired3, retired5 := retired5
        liabTotal3 := liabTotal3, liabTotal5 := liabTotal5
        annuitant5 := annuitant5, fixedIncome5 := fixedIncome5
        prtLikelihood := prtLikelihood
        freezePattern := freezePattern
        assetShiftTimeline := timeline
        compositeScore := score
        isDerisking := 2 ≤ score }

end DeRiskingAgent

/-
Section 7: embedding of agents/peer_benchmark_agent.py z-score and percentile.
-/

/-- Mean of a rational list (reducible form). -/
def qMean (xs : List ℚ) : ℚ := qDiv (qSum xs) (mkRat xs.length 1)

/-- Sample variance with one delta degree of freedom, as pandas Series.std
squares to; meaningful for length at least two. -/
def sampleVariance (xs : List ℚ) : ℚ :=
  qDiv (qSum (xs.map (fun x => qMul (qSub x (qMean xs)) (qSub x (qMean xs)))))
    (mkRat (xs.length - 1) 1)

/-- The value returned by compute_z_score: the literal zero default of the
degenerate branch, or the number (val - mean) over the square root of the
recorded positive variance. -/
inductive ZScoreResult where
  | defaulted
  | ratio (num : ℚ) (sigmaSq : ℚ)
deriving Repr, DecidableEq

/-- compute_z_score from peer_benchmark_agent.py: pandas std is NaN for fewer
than two observations, and the source returns the numeric default zero when
the deviation is NaN or zero; otherwise the standardized ratio, encoded by its
numerator and squared denominator since the square root is irrational. -/
def compute_z_score (val : ℚ) (peers : List ℚ) : ZScoreResult :=
  if peers.length < 2 then ZScoreResult.defaulted
  else if qZeroB (sampleVariance peers) then ZScoreResult.defaulted
  else ZScoreResult.ratio (qSub val (qMean peers)) (sampleVariance peers)

/-- compute_percentile from peer_benchmark_agent.py: the mean of the boolean
series peers strictly below val, which is NaN exactly on an empty cohort. -/
def compute_percentile (val : ℚ) (peers : List ℚ) : Option ℚ :=
  if peers.isEmpty then none
  else some (mkRat (peers.countP (fun x => qLtB x val)) peers.length)

/-
Section 8: concrete instances referenced by the counterexample and witness
theorems.
-/

/-- A sponsor frame whose active series has a gap: 2020 is present with a
missing active count, and the 2019 to 2021 drop exceeds the threshold. -/
def gapSponsorFrame : SponsorFrame :=
  { rows := [⟨2019, some 1000, none, none, none, none, none⟩,
             ⟨2020, none, none, none, none, none, none⟩,
             ⟨2021, some 500, none, none, none, none, none⟩]
    hasNewEntrants := false, hasFixedIncomePct := false, hasLiabilityRetired := false }

/-- A sponsor frame with a single row and no available metric observations. -/
def singletonSponsorFrame : SponsorFrame :=
  { rows := [⟨2020, none, none, none, none, none, none⟩]
    hasNewEntrants := true, hasFixedIncomePct := true, hasLiabilityRetired := true }

/-- The metric series of the missing-year-gap scenario: observations in 2019,
2021 and 2023 only. -/
def gapSeries : YearSeries := [(2019, some 10), (2021, some 20), (2023, some 40)]

/-- A one-observation metric series. -/
def singleObsSeries : YearSeries := [(2020, some 7)]

/-- A yearly merged row duplicated in the build_master_dataset counterexample. -/
def dupYearlyRow : YearlyRow :=
  ⟨"12", "001", some 5, some 3, some 1, some 9, some 10, some 20, some 0, some (mkRat 1 2)⟩

/-- Form 5500 frame with an ACK_ID column, carrying a primary-key match. -/
def ackFrame5500 : FilingFrame := ⟨true, [⟨"11", "1", some 2021, some "A1", 7⟩]⟩

/-- Schedule SB frame with an ACK_ID column and the matching ACK_ID. -/
def ackFrameSB : FilingFrame := ⟨true, [⟨"11", "1", some 2021, some "A1", 8⟩]⟩

/-- Form 5500 frame without an ACK_ID column. -/
def plainFrame5500 : FilingFrame := ⟨false, [⟨"11", "1", some 2021, none, 7⟩]⟩

/-- Schedule SB frame without an ACK_ID column whose single row matches
plainFrame5500 on the key triple. -/
def plainFrameSB : FilingFrame := ⟨false, [⟨"11", "1", some 2021, none, 8⟩]⟩

/-- Schedule SB frame without an ACK_ID column and with no key in common with
plainFrame5500. -/
def otherFrameSB : FilingFrame := ⟨false, [⟨"22", "1", some 2021, none, 8⟩]⟩

/-- Raw SB table whose only separated-count cell is unparsable. -/
def rawSepTable : RawTable :=
  ⟨["SB_TERM_PARTCP_CNT", "SB_ACT_PARTCP_CNT"],
   [[("SB_TERM_PARTCP_CNT", some "abc"), ("SB_ACT_PARTCP_CNT", some "10")]]⟩

/-- Raw SB table used to witness the numeric missing-propagation statement. -/
def rawMissingTable : RawTable :=
  ⟨["SB_ACT_PARTCP_CNT", "SB_RTD_FNDNG_TGT_AMT"],
   [[("SB_ACT_PARTCP_CNT", some "abc"), ("SB_RTD_FNDNG_TGT_AMT", some "xyz")]]⟩

/-- Raw SB table with alias-named identifier columns only; normalization adds
EIN, PLAN_YEAR and ACK_ID columns to it. -/
def rawAliasTable : RawTable :=
  ⟨["SB_EIN", "PLAN_NUMBER", "SB_PLAN_YR"],
   [[("SB_EIN", some " 123 "), ("PLAN_NUMBER", some "1"), ("SB_PLAN_YR", some "2021")]]⟩

/-- A master table with one sponsor and a single year of history. -/
def oneYearMaster : List AgentRow :=
  [⟨"1", 2020, some 5, none, none, none, none, none, none⟩]

/-- An SB input row of the combine_years witness. -/
def cyWitnessRow : CYRow := ⟨" 1 ", "2", 5⟩

/-- The output row produced from cyWitnessRow by combine_years_year. -/
def cyWitnessOut : CYOut :=
  { ein := "1", planNumber := "002", planYear := 2021, sbKey := "1-002-2021"
    sbPayload := 5, pay5500 := none, paySR := none, trackingId := "1-002" }

/-
Section 9: claim theorems, witnesses and counterexamples.
-/

theorem qAdd_eq (a b : ℚ) : qAdd a b = a + b := by
  rw [qAdd, Rat.divInt_eq_div]
  push_cast
  conv_rhs => rw [← Rat.num_div_den a, ← Rat.num_div_den b]
  rw [div_add_div _ _ (by positivity) (by positivity)]
  ring_nf

theorem qSub_eq (a b : ℚ) : qSub a b = a - b := by
  rw [qSub, Rat.divInt_eq_div]
  push_cast
  conv_rhs => rw [← Rat.num_div_den a, ← Rat.num_div_den b]
  rw [div_sub_div _ _ (by positivity) (by positivity)]
  ring_nf

theorem qMul_eq (a b : ℚ) : qMul a b = a * b := by
  rw [qMul, Rat.divInt_eq_div]
  push_cast
  conv_rhs => rw [← Rat.num_div_den a, ← Rat.num_div_den b]
  rw [div_mul_div_comm]

theorem qDiv_eq (a b : ℚ) : qDiv a b = a / b := by
  conv_rhs => rw [← Rat.num_divInt_den a, ← Rat.num_divInt_den b, Rat.divInt_div_divInt]
  rw [qDiv]

theorem qLtB_iff (a b : ℚ) : qLtB a b = true ↔ a < b := by
  rw [qLtB, decide_eq_true_iff, qSub_eq, Rat.num_neg, sub_neg]

theorem qZeroB_iff (a : ℚ) : qZeroB a = true ↔ a = 0 := by
  rw [qZeroB, beq_iff_eq, Rat.num_eq_zero]

theorem qNegB_iff (a : ℚ) : qNegB a = true ↔ a < 0 := by
  rw [qNegB, decide_eq_true_iff, Rat.num_neg]

theorem qPosB_iff (a : ℚ) : qPosB a = true ↔ 0 < a := by
  rw [qPosB, decide_eq_true_iff, Rat.num_pos]

theorem qSum_eq (xs : List ℚ) : qSum xs = xs.sum := by
  induction xs with
  | nil => rfl
  | cons x xs ih => rw [qSum, List.foldr_cons, qAdd_eq, List.sum_cons, ← qSum, ih]

theorem dedupByKey_subset {α κ : Type} [DecidableEq κ] (key : α → κ)
    (xs : List α) (y : α) (hy : y ∈ dedupByKey key xs) : y ∈ xs := by
  induction xs using dedupByKey.induct key with
  | case1 => simp [dedupByKey] at hy
  | case2 x xs ih =>
    rw [dedupByKey] at hy
    rcases List.mem_cons.mp hy with h | h
    · exact h ▸ List.mem_cons_self x xs
    · exact List.mem_cons_of_mem x (List.mem_of_mem_filter (ih h))

theorem dedupByKey_nodup_keys {α κ : Type} [DecidableEq κ] (key : α → κ)
    (xs : List α) : ((dedupByKey key xs).map key).Nodup := by
  induction xs using dedupByKey.induct key with
  | case1 => simp [dedupByKey]
  | case2 x xs ih =>
    rw [dedupByKey, List.map_cons, List.nodup_cons]
    refine ⟨?_, ih⟩
    intro hmem
    rcases List.mem_map.mp hmem with ⟨y, hy, hkey⟩
    have hyx := dedupByKey_subset key _ y hy
    have := List.of_mem_filter hyx
    simp only [decide_eq_true_eq] at this
    exact this hkey

theorem sum_map_shift_mul (l : List (ℚ × ℚ)) (mx my : ℚ) :
    (l.map (fun p => (p.1 - mx) * (p.2 - my))).sum =
      (l.map (fun p => p.1 * p.2)).sum - mx * (l.map Prod.snd).sum -
        my * (l.map Prod.fst).sum + (l.length : ℚ) * (mx * my) := by
  induction l with
  | nil => simp
  | cons p l ih =>
    simp only [List.map_cons, List.sum_cons, List.length_cons, ih]
    push_cast
    ring

theorem sum_map_shift_sq (l : List (ℚ × ℚ)) (mx : ℚ) :
    (l.map (fun p => (p.1 - mx) * (p.1 - mx))).sum =
      (l.map (fun p => p.1 * p.1)).sum - 2 * mx * (l.map Prod.fst).sum +
        (l.length : ℚ) * (mx * mx) := by
  induction l with
  | nil => simp
  | cons p l ih =>
    simp only [List.map_cons, List.sum_cons, List.length_cons, ih]
    push_cast
    ring

theorem polyfitSlope_eq_olsSlopeSpec (pts : List (ℚ × ℚ)) (h : pts ≠ []) :
    polyfitSlope pts = olsSlopeSpec pts := by
  have hn : ((pts.length : ℚ)) ≠ 0 := by
    have := List.length_pos.mpr h
    positivity
  simp only [polyfitSlope, olsSlopeSpec, qMul_eq, qSub_eq, qDiv_eq, qSum_eq, Rat.mkRat_one]
  push_cast
  rw [sum_map_shift_mul, sum_map_shift_sq]
  have h1 : (pts.length : ℚ) * (pts.map (fun p => p.1 * p.2)).sum -
      (pts.map Prod.fst).sum * (pts.map Prod.snd).sum =
      (pts.length : ℚ) *
        ((pts.map (fun p => p.1 * p.2)).sum -
          (pts.map Prod.fst).sum / pts.length * (pts.map Prod.snd).sum -
          (pts.map Prod.snd).sum / pts.length * (pts.map Prod.fst).sum +
          (pts.length : ℚ) *
            ((pts.map Prod.fst).sum / pts.length * ((pts.map Prod.snd).sum / pts.length))) := by
    field_simp
    ring
  have h2 : (pts.length : ℚ) * (pts.map (fun p => p.1 * p.1)).sum -
      (pts.map Prod.fst).sum * (pts.map Prod.fst).sum =
      (pts.length : ℚ) *
        ((pts.map (fun p => p.1 * p.1)).sum -
          2 * ((pts.map Prod.fst).sum / pts.length) * (pts.map Prod.fst).sum +
          (pts.length : ℚ) *
            ((pts.map Prod.fst).sum / pts.length * ((pts.map Prod.fst).sum / pts.length))) := by
    field_simp
    ring
  rw [h1, h2, mul_div_mul_left _ _ hn]

theorem indexPoints_length (ys : List ℚ) : (indexPoints ys).length = ys.length := by
  rw [indexPoints, List.length_zip, List.length_map, List.length_range, Nat.min_self]

theorem slope_window_eval (s : YearSeries) (w : Nat) (hw : 2 ≤ w)
    (h : 2 ≤ (seriesSortDropna s).length) :
    DeRiskingAgent.slope s w =
      some (olsSlopeSpec (indexPoints ((takeLast (seriesSortDropna s) w).map Prod.snd))) := by
  have hlen : (takeLast (seriesSortDropna s) w).length =
      (seriesSortDropna s).length - ((seriesSortDropna s).length - w) := by
    simp [takeLast]
  have ht : 2 ≤ (takeLast (seriesSortDropna s) w).length := by omega
  have hpts : indexPoints ((takeLast (seriesSortDropna s) w).map Prod.snd) ≠ [] := by
    intro hnil
    have h0 := congrArg List.length hnil
    rw [indexPoints_length, List.length_map, List.length_nil] at h0
    omega
  simp only [DeRiskingAgent.slope]
  rw [if_neg (by omega), if_neg (by omega), polyfitSlope_eq_olsSlopeSpec _ hpts]

/-- C3: a metric series with fewer than two available observations has an
undefined slope for both the three-year and the five-year window: the
DeRiskingAgent slope method returns NaN, not zero and not the single value. -/
theorem slope_undefined_below_two_observations (s : YearSeries)
    (h : (seriesSortDropna s).length < 2) :
    DeRiskingAgent.slope s 3 = none ∧ DeRiskingAgent.slope s 5 = none := by
  constructor <;> (simp only [DeRiskingAgent.slope]; rw [if_pos h])

/-- C3 witness: the one-observation series at a concrete input. -/
theorem slope_undefined_below_two_observations_witness :
    (seriesSortDropna singleObsSeries).length < 2 ∧
    (DeRiskingAgent.slope singleObsSeries 3 = none ∧
     DeRiskingAgent.slope singleObsSeries 5 = none) :=
  ⟨by decide, slope_undefined_below_two_observations singleObsSeries (by decide)⟩

/-- C6: with at least two available observations the slope is the ordinary
least-squares slope fitted against the zero-based consecutive index of the
trailing available observations, not against calendar years; gaps reduce the
sample without changing the index spacing. -/
theorem slope_is_ols_on_zero_based_index (s : YearSeries)
    (h : 2 ≤ (seriesSortDropna s).length) :
    DeRiskingAgent.slope s 3 =
      some (olsSlopeSpec (indexPoints ((takeLast (seriesSortDropna s) 3).map Prod.snd))) ∧
    DeRiskingAgent.slope s 5 =
      some (olsSlopeSpec (indexPoints ((takeLast (seriesSortDropna s) 5).map Prod.snd))) :=
  ⟨slope_window_eval s 3 (by omega) h, slope_window_eval s 5 (by omega) h⟩

/-- C6 witness: the 2019, 2021, 2023 gap scenario at a concrete input; the
three-year slope is fitted on the zero-based index of the three available
points. -/
theorem slope_is_ols_on_zero_based_index_witness :
    2 ≤ (seriesSortDropna gapSeries).length ∧
    (DeRiskingAgent.slope gapSeries 3 =
      some (olsSlopeSpec (indexPoints ((takeLast (seriesSortDropna gapSeries) 3).map Prod.snd))) ∧
     DeRiskingAgent.slope gapSeries 5 =
      some (olsSlopeSpec (indexPoints ((takeLast (seriesSortDropna gapSeries) 5).map Prod.snd)))) :=
  ⟨by decide, slope_is_ols_on_zero_based_index gapSeries (by decide)⟩

theorem insertSortedBy_length {α : Type} (le : α → α → Bool) (x : α) (xs : List α) :
    (insertSortedBy le x xs).length = xs.length + 1 := by
  induction xs with
  | nil => rfl
  | cons y ys ih =>
    rw [insertSortedBy]
    by_cases hle : le y x = true
    · rw [if_pos hle, List.length_cons, ih, List.length_cons]
    · rw [if_neg hle, List.length_cons, List.length_cons]

theorem sortByKeyed_length {α : Type} (le : α → α → Bool) (xs : List α) :
    (sortByKeyed le xs).length = xs.length := by
  induction xs with
  | nil => rfl
  | cons x xs ih => rw [sortByKeyed, insertSortedBy_length, ih, List.length_cons]

theorem seriesSortDropna_length_le (s : YearSeries) :
    (seriesSortDropna s).length ≤ s.length := by
  rw [seriesSortDropna]
  calc ((sortByKeyed (fun p q => decide (p.1 ≤ q.1)) s).filterMap
          (fun p => p.2.map (fun v => (p.1, v)))).length
      ≤ (sortByKeyed (fun p q => decide (p.1 ≤ q.1)) s).length :=
        List.length_filterMap_le _ _
    _ = s.length := sortByKeyed_length _ s

theorem yoy_short_entries (s : YearSeries) (h : (seriesSortDropna s).length ≤ 1) :
    ∀ p ∈ year_over_year_change s, p.2 = PFloat.num 0 := by
  intro p hp
  rw [year_over_year_change] at hp
  cases hs : seriesSortDropna s with
  | nil => rw [hs] at hp; simp [pct_change_series] at hp
  | cons x xs =>
    have hxs : xs = [] := by
      rw [hs, List.length_cons] at h
      exact List.eq_nil_of_length_eq_zero (by omega)
    subst hxs
    rw [hs] at hp
    obtain ⟨y, v⟩ := x
    simp only [pct_change_series, pctPairs, List.map_cons, List.map_nil, pfFillna0] at hp
    rcases List.mem_cons.mp hp with h1 | h1
    · rw [h1]
    · simp at h1

theorem sharp_decline_false_of_short (df : SponsorFrame)
    (h : (seriesSortDropna (df.rows.map (fun r => (r.year, r.active)))).length ≤ 1) :
    (detect_freezing df).1 = false := by
  simp only [detect_freezing]
  rw [List.any_eq_false]
  intro p hp
  have h0 := yoy_short_entries _ h p hp
  rw [h0]
  decide

theorem asset_shift_false_of_short (df : SponsorFrame)
    (h : (seriesSortDropna (df.rows.map (fun r => (r.year, r.fixedIncomePct)))).length ≤ 1) :
    detect_asset_shift df = false := by
  rw [detect_asset_shift]
  cases hfi : df.hasFixedIncomePct with
  | false => rw [if_neg (by simp [hfi])]
  | true =>
    rw [if_pos (by simp [hfi]), List.any_eq_false]
    intro p hp
    have h0 := yoy_short_entries _ h p hp
    rw [h0]
    decide

theorem liability_transfer_false_of_short (df : SponsorFrame)
    (h : (seriesSortDropna (df.rows.map (fun r => (r.year, r.retired)))).length ≤ 1) :
    detect_liability_transfer df = false := by
  simp only [detect_liability_transfer]
  split <;> split
  all_goals
    first
    | rfl
    | · rw [List.any_eq_false]
        intro p hp
        have h0 := yoy_short_entries _ h p hp
        rw [h0]
        have h1 : pfLt (PFloat.num 0) (mkRat (-10) 100) = false := by decide
        rw [h1, Bool.false_and]
        simp

theorem ratio_increase_false_of_short (df : SponsorFrame) (h : df.rows.length ≤ 1) :
    (detect_freezing df).2.1 = false := by
  simp only [detect_freezing]
  have hlen : (sortByKeyed (fun a b => decide (a.year ≤ b.year)) df.rows).length ≤ 1 := by
    rw [sortByKeyed_length]; exact h
  cases hs : sortByKeyed (fun a b => decide (a.year ≤ b.year)) df.rows with
  | nil => rfl
  | cons r rest =>
    have hrest : rest = [] := by
      rw [hs, List.length_cons] at hlen
      exact List.eq_nil_of_length_eq_zero (by omega)
    subst hrest
    simp only [List.map_cons, List.map_nil, pfDiffList, pfDiffPairs]
    decide

/-- C5 (amended): the detection rules treat data as non-triggering only when
there are not even two points to compare. A metric series with fewer than two
available observations never fires the sharp-active-decline, asset-shift, or
liability-transfer rule, and a sponsor frame with at most one row fires none
of the four rules: the single filled change is zero. A year whose immediately
prior calendar year is absent is however not treated as undefined: its change
is computed against the most recent available earlier observation, and an
undefined retiree ratio is replaced by zero before differencing, so such years
can fire the rules. -/
theorem detect_rules_insufficient_data_nontriggering (df : SponsorFrame) :
    (df.rows.length ≤ 1 →
      (detect_freezing df).1 = false ∧ (detect_freezing df).2.1 = false ∧
      detect_asset_shift df = false ∧ detect_liability_transfer df = false) ∧
    ((seriesSortDropna (df.rows.map (fun r => (r.year, r.active)))).length ≤ 1 →
      (detect_freezing df).1 = false) ∧
    ((seriesSortDropna (df.rows.map (fun r => (r.year, r.fixedIncomePct)))).length ≤ 1 →
      detect_asset_shift df = false) ∧
    ((seriesSortDropna (df.rows.map (fun r => (r.year, r.retired)))).length ≤ 1 →
      detect_liability_transfer df = false) := by
  have hbound : ∀ f : SponsorRow → Int × Option ℚ, df.rows.length ≤ 1 →
      (seriesSortDropna (df.rows.map f)).length ≤ 1 := by
    intro f h
    calc (seriesSortDropna (df.rows.map f)).length ≤ (df.rows.map f).length :=
          seriesSortDropna_length_le _
      _ = df.rows.length := List.length_map _ _
      _ ≤ 1 := h
  refine ⟨fun h => ⟨?_, ?_, ?_, ?_⟩, ?_, ?_, ?_⟩
  · exact sharp_decline_false_of_short df (hbound _ h)
  · exact ratio_increase_false_of_short df h
  · exact asset_shift_false_of_short df (hbound _ h)
  · exact liability_transfer_false_of_short df (hbound _ h)
  · exact sharp_decline_false_of_short df
  · exact asset_shift_false_of_short df
  · exact liability_transfer_false_of_short df

/-- C5 witness: the one-row sponsor frame at a concrete input; every
hypothesis of the amended statement is discharged there. -/
theorem detect_rules_insufficient_data_nontriggering_witness :
    ((detect_freezing singletonSponsorFrame).1 = false ∧
     (detect_freezing singletonSponsorFrame).2.1 = false ∧
     detect_asset_shift singletonSponsorFrame = false ∧
     detect_liability_transfer singletonSponsorFrame = false) ∧
    (detect_freezing singletonSponsorFrame).1 = false ∧
    detect_asset_shift singletonSponsorFrame = false ∧
    detect_liability_transfer singletonSponsorFrame = false :=
  ⟨(detect_rules_insufficient_data_nontriggering singletonSponsorFrame).1 (by decide),
   (detect_rules_insufficient_data_nontriggering singletonSponsorFrame).2.1 (by decide),
   (detect_rules_insufficient_data_nontriggering singletonSponsorFrame).2.2.1 (by decide),
   (detect_rules_insufficient_data_nontriggering singletonSponsorFrame).2.2.2 (by decide)⟩

/-- C5 counterexample: in the gap frame the 2021 active change fires the
sharp-decline rule although the prior calendar year 2020 is present with a
missing active value, contradicting the claim that a year whose prior-year
value is absent never causes a rule to fire. -/
theorem detect_freezing_gap_year_fires_example :
    (detect_freezing gapSponsorFrame).1 = true ∧
    gapSponsorFrame.rows.any (fun r => r.year == 2020 && r.active == none) = true ∧
    gapSponsorFrame.rows.any (fun r => r.year == 2021 && r.active == some 500) = true := by
  refine ⟨by decide, by decide, by decide⟩

/-- C1 (amended): after its drop_duplicates step the merge_sb_sr output has
exactly one row per (EIN, PLAN_NUMBER, YEAR) key, with NaN keys of the
fallback rows compared equal; build_master_dataset performs no deduplication,
so the all-years master preserves any key multiplicity of its input. -/
theorem merge_sb_sr_unique_plan_year_keys (sb sr : List SbSrRow) :
    ((merge_sb_sr sb sr).map sbSrKey).Nodup :=
  dedupByKey_nodup_keys sbSrKey _

/-- C1 counterexample: a yearly input carrying the same plan twice yields a
master table with two rows for the (tracking_id, year) pair, so the
concatenated master built by build_master_dataset does not satisfy the
exactly-one-row postcondition. -/
theorem build_master_dataset_duplicate_key_example :
    ((build_master_dataset [(2021, [dupYearlyRow, dupYearlyRow])]).countP
      (fun r => r.trackingId == "12-001" && r.planYear == 2021)) = 2 := by
  decide

/-- C2: evaluation of merge_sb_5500 at its failing inputs. With ACK_ID present
on both sides (a primary-key match) the function raises KeyError instead of
tagging the row with merge_quality two, because the merge suffixes away the
shared EIN column before the TRACKING_ID line reads it; without ACK_ID
columns, a row matched on the key triple is tagged merge_quality zero, not
two, because the sb_merge_flag column EIN_SB never exists in that branch. -/
theorem merge_sb_5500_merge_quality_failure_eval :
    (match merge_sb_5500 ackFrame5500 ackFrameSB none with
     | Except.error msg => msg == "KeyError: EIN"
     | Except.ok _ => false) = true ∧
    (match merge_sb_5500 plainFrame5500 plainFrameSB none with
     | Except.ok rows =>
         rows.all (fun m => m.mergeQuality == 0 && m.sbMergeFlag == false) &&
         rows.any (fun m => m.paySB.isSome && m.pay5500.isSome)
     | Except.error _ => false) = true := by
  refine ⟨by decide, by decide⟩

theorem leftJoin1_fst_mem {α β : Type} (find : α → List β) (xs : List α)
    (p : α × Option β) (hp : p ∈ leftJoin1 find xs) : p.1 ∈ xs := by
  rw [leftJoin1] at hp
  rcases List.mem_flatMap.mp hp with ⟨a, ha, hpa⟩
  dsimp only at hpa
  split at hpa
  · rcases List.mem_singleton.mp hpa with rfl
    exact ha
  · rcases List.mem_map.mp hpa with ⟨b, _, rfl⟩
    exact ha

/-- C7 (amended): every row of the per-year table built by combine_years
derives from a Schedule SB row: its identifiers are the normalized SB
identifiers and its plan year is the processed year, so supplemental rows with
no SB key match are excluded from the output. The claim fails for
merge_sb_5500, whose outer join emits supplemental rows with no SB match, and
no drop count is logged by either function. -/
theorem combine_years_output_keys_from_sb (year : Int) (sb : List CYRow)
    (f5500 sr : Option (List CYRow)) (o : CYOut)
    (hmem : o ∈ combine_years_year year sb f5500 sr) :
    ∃ a ∈ sb, o.ein = pyStrip a.ein ∧ o.planNumber = zfill 3 (pyStrip a.planNumber) ∧
      o.planYear = year := by
  simp only [combine_years_year] at hmem
  rcases List.mem_map.mp hmem with ⟨p, hp, rfl⟩
  have h1 := leftJoin1_fst_mem _ _ _ hp
  have h2 := leftJoin1_fst_mem _ _ _ h1
  rcases List.mem_map.mp h2 with ⟨a, ha, hnorm⟩
  refine ⟨a, ha, ?_, ?_, rfl⟩
  · rw [← hnorm]; rfl
  · rw [← hnorm]; rfl

/-- C7 witness: the containment statement at a concrete input. -/
theorem combine_years_output_keys_from_sb_witness :
    ∃ a ∈ [cyWitnessRow], cyWitnessOut.ein = pyStrip a.ein ∧
      cyWitnessOut.planNumber = zfill 3 (pyStrip a.planNumber) ∧
      cyWitnessOut.planYear = 2021 :=
  combine_years_output_keys_from_sb 2021 [cyWitnessRow] none none cyWitnessOut (by decide)

/-- C7 counterexample: merge_sb_5500 emits a supplemental Form 5500 row whose
key matches no row of the Schedule SB input, so the claim that the record
matcher output contains only SB-backed plan-years is false for it. -/
theorem merge_sb_5500_emits_non_sb_row_example :
    (match merge_sb_5500 plainFrame5500 otherFrameSB none with
     | Except.ok rows =>
         rows.any (fun m =>
           !((normFilingFrame otherFrameSB).rows.any (fun b =>
             b.ein == m.ein && b.planNumber == m.planNumber && b.planYear == m.planYear)))
     | Except.error _ => false) = true := by
  decide

/-- C4 (amended): the numeric coercion of the SB normalizer maps unparsable
and absent values to missing, and the normalized output preserves missing for
the active and retiree counts and every liability column, never substituting
zero; SEPARATED_COUNT however is filled with zero when its source is missing
or unparsable (and the synthesized total treats missing components as zero).
The first conjunct ties the per-row kernel to normalize_sb_fields. -/
theorem normalize_sb_numeric_missing_propagation
    (t0 t : RawTable) (py : Option Int) (fb : Bool) (r : RawRow) :
    ((normalize_sb_fields t0 py).2 =
      (normalize_sb_fields t0 py).1.rows.map
        (sbNormRow (normalize_sb_fields t0 py).1 py
          (totalAllNull (normalize_sb_fields t0 py).1))) ∧
    (getIntField t r ["SB_ACT_PARTCP_CNT", "ACTIVE_COUNT", "ACT_PARTCP_CNT", "ACTIVES"] = none →
      (sbNormRow t py fb r).activeCount = none) ∧
    ((sbNormRow t py fb r).activeCount = some 0 →
      getIntField t r ["SB_ACT_PARTCP_CNT", "ACTIVE_COUNT", "ACT_PARTCP_CNT", "ACTIVES"] = some 0) ∧
    (getIntField t r ["SB_RTD_PARTCP_CNT", "RETIREE_COUNT", "RTD_PARTCP_CNT", "RETIREE"] = none →
      (sbNormRow t py fb r).retireeCount = none) ∧
    (getFloatField t r ["SB_ACT_VSTD_FNDNG_TGT_AMT", "ACT_LIABILITY"] = none →
      (sbNormRow t py fb r).actLiability = none) ∧
    (getFloatField t r ["SB_RTD_FNDNG_TGT_AMT", "RET_LIABILITY"] = none →
      (sbNormRow t py fb r).retLiability = none) ∧
    (getFloatField t r ["SB_TERM_FNDNG_TGT_AMT", "TERM_LIABILITY"] = none →
      (sbNormRow t py fb r).termLiability = none) ∧
    (getFloatField t r ["SB_TOT_FNDNG_TGT_AMT", "TOTAL_LIABILITY"] = none →
      (sbNormRow t py fb r).totalLiability = none) ∧
    (getIntField t r ["SB_TERM_PARTCP_CNT"] = none →
      (sbNormRow t py fb r).separatedCount = some 0) := by
  refine ⟨by simp only [normalize_sb_fields], ?_, ?_, ?_, ?_, ?_, ?_, ?_, ?_⟩
  · intro h; simp only [sbNormRow]; rw [h]
  · intro h; simp only [sbNormRow] at h; exact h
  · intro h; simp only [sbNormRow]; rw [h]
  · intro h; simp only [sbNormRow]; rw [h]
  · intro h; simp only [sbNormRow]; rw [h]
  · intro h; simp only [sbNormRow]; rw [h]
  · intro h; simp only [sbNormRow]; rw [h]
  · intro h; simp only [sbNormRow]; rw [h]; rfl

/-- C4 witness: an unparsable active count and retiree liability at a concrete
input propagate as missing through the normalized output row. -/
theorem normalize_sb_numeric_missing_propagation_witness :
    (sbNormRow rawMissingTable none false
        [("SB_ACT_PARTCP_CNT", some "abc"), ("SB_RTD_FNDNG_TGT_AMT", some "xyz")]).activeCount
        = none ∧
    (sbNormRow rawMissingTable none false
        [("SB_ACT_PARTCP_CNT", some "abc"), ("SB_RTD_FNDNG_TGT_AMT", some "xyz")]).retLiability
        = none ∧
    (sbNormRow rawMissingTable none false
        [("SB_ACT_PARTCP_CNT", some "abc"), ("SB_RTD_FNDNG_TGT_AMT", some "xyz")]).separatedCount
        = some 0 :=
  ⟨(normalize_sb_numeric_missing_propagation rawMissingTable rawMissingTable none false
      [("SB_ACT_PARTCP_CNT", some "abc"), ("SB_RTD_FNDNG_TGT_AMT", some "xyz")]).2.1 (by decide),
   (normalize_sb_numeric_missing_propagation rawMissingTable rawMissingTable none false
      [("SB_ACT_PARTCP_CNT", some "abc"), ("SB_RTD_FNDNG_TGT_AMT", some "xyz")]).2.2.2.2.2.1
     (by decide),
   (normalize_sb_numeric_missing_propagation rawMissingTable rawMissingTable none false
      [("SB_ACT_PARTCP_CNT", some "abc"), ("SB_RTD_FNDNG_TGT_AMT", some "xyz")]).2.2.2.2.2.2.2.2
     (by decide)⟩

/-- C4 counterexample: an unparsable separated count becomes zero, not
missing, in the normalize_sb_fields output, so the claim that no numeric
column of the output substitutes zero for an absent value is false for
SEPARATED_COUNT. -/
theorem normalize_sb_separated_count_zero_fill_example :
    parse_int (some "abc") = none ∧
    ((normalize_sb_fields rawSepTable (some 2021)).2.map
      (fun r => r.separatedCount)) = [some 0] := by
  refine ⟨by decide, by decide⟩

/-- C10: normalize_sb_fields is not pure with respect to its input table: at
the alias-named input it appends the canonical columns EIN and PLAN_YEAR and a
synthesized ACK_ID column to the caller frame, so the input column set grows. -/
theorem normalize_sb_fields_mutates_input_columns :
    (normalize_sb_fields rawAliasTable (some 2021)).1.cols =
      rawAliasTable.cols ++ ["EIN", "PLAN_YEAR", "ACK_ID"] ∧
    rawAliasTable.cols ≠ (normalize_sb_fields rawAliasTable (some 2021)).1.cols := by
  refine ⟨by decide, by decide⟩

/-- C8: analyze_sponsor returns the explicit not-found error when no master
row carries the queried identifier, the distinct explicit insufficient-history
error when rows exist but fewer than two distinct years do, and the three
result forms are pairwise distinct, so neither error case is an
empty-but-successful analysis. -/
theorem analyze_sponsor_error_results (master : List AgentRow) (ein : String) :
    ((master.filter (fun r => r.ein == ein)) = [] →
      DeRiskingAgent.analyze_sponsor master ein = AnalyzeResult.errorNotFound) ∧
    ((master.filter (fun r => r.ein == ein)) ≠ [] →
      distinctYears (master.filter (fun r => r.ein == ein)) < 2 →
      DeRiskingAgent.analyze_sponsor master ein = AnalyzeResult.errorInsufficientYears) ∧
    (AnalyzeResult.errorNotFound ≠ AnalyzeResult.errorInsufficientYears ∧
      (∀ a, AnalyzeResult.errorNotFound ≠ AnalyzeResult.analysis a) ∧
      (∀ a, AnalyzeResult.errorInsufficientYears ≠ AnalyzeResult.analysis a)) := by
  refine ⟨?_, ?_, ?_, ?_, ?_⟩
  · intro h
    simp only [DeRiskingAgent.analyze_sponsor, h]
    rfl
  · intro h1 h2
    have hne : (master.filter (fun r => r.ein == ein)).isEmpty = false :=
      List.isEmpty_eq_false.mpr h1
    simp only [DeRiskingAgent.analyze_sponsor, hne, Bool.false_eq_true, if_false, if_pos h2]
  · intro h; exact AnalyzeResult.noConfusion h
  · intro a h; exact AnalyzeResult.noConfusion h
  · intro a h; exact AnalyzeResult.noConfusion h

/-- C8 witness: a one-sponsor, one-year master at concrete inputs exercises
both error results through the theorem. -/
theorem analyze_sponsor_error_results_witness :
    DeRiskingAgent.analyze_sponsor oneYearMaster "2" = AnalyzeResult.errorNotFound ∧
    DeRiskingAgent.analyze_sponsor oneYearMaster "1" = AnalyzeResult.errorInsufficientYears :=
  ⟨(analyze_sponsor_error_results oneYearMaster "2").1 (by decide),
   (analyze_sponsor_error_results oneYearMaster "1").2.1 (by decide) (by decide)⟩

/-- C9 (amended): compute_percentile is undefined exactly on an empty cohort;
compute_z_score is never undefined, substituting the numeric default zero
whenever the cohort has fewer than two members or zero variance, and every
non-empty cohort yields a numeric percentile (the fraction of cohort values
strictly below the entity). -/
theorem peer_stats_degenerate_cohort_behavior (val : ℚ) (peers : List ℚ) :
    (peers.length < 2 → compute_z_score val peers = ZScoreResult.defaulted) ∧
    (sampleVariance peers = 0 → compute_z_score val peers = ZScoreResult.defaulted) ∧
    (peers = [] → compute_percentile val peers = none) ∧
    (peers ≠ [] → compute_percentile val peers =
      some (mkRat (peers.countP (fun x => qLtB x val)) peers.length)) := by
  refine ⟨?_, ?_, ?_, ?_⟩
  · intro h
    rw [compute_z_score, if_pos h]
  · intro h
    rw [compute_z_score]
    by_cases hlen : peers.length < 2
    · rw [if_pos hlen]
    · rw [if_neg hlen, if_pos ((qZeroB_iff _).mpr h)]
  · intro h
    subst h
    rfl
  · intro h
    rw [compute_percentile, if_neg]
    simp [List.isEmpty_iff, h]

/-- C9 witness: the degenerate statements at concrete cohorts. -/
theorem peer_stats_degenerate_cohort_behavior_witness :
    compute_z_score 5 [] = ZScoreResult.defaulted ∧
    compute_z_score 7 [] = ZScoreResult.defaulted ∧
    compute_percentile 5 [] = none ∧
    compute_percentile 5 [5] = some (mkRat (([(5:ℚ)].countP (fun x => qLtB x 5)) : Int) 1) :=
  ⟨(peer_stats_degenerate_cohort_behavior 5 []).1 (by decide),
   (peer_stats_degenerate_cohort_behavior 7 []).2.1 (by decide),
   (peer_stats_degenerate_cohort_behavior 5 []).2.2.1 rfl,
   (peer_stats_degenerate_cohort_behavior 5 [5]).2.2.2 (by decide)⟩

/-- C9 counterexample: with zero members besides the entity itself the
z-score is the numeric default zero, not undefined, and the percentile is the
numeric zero fraction; on the empty cohort the z-score is still the numeric
default. This contradicts the claim that compute_z_score and
compute_percentile never substitute numeric defaults on a degenerate cohort. -/
theorem z_score_default_zero_on_degenerate_cohort_example :
    compute_z_score 5 [] = ZScoreResult.defaulted ∧
    compute_z_score 5 [5] = ZScoreResult.defaulted ∧
    compute_percentile 5 [5] = some 0 := by
  refine ⟨by decide, by decide, by decide⟩
